import Mathlib

/-!
Shallow embedding of the `File` handle abstraction of
`src/libmbcommon` (DualBootPatcher): the core state machine in
`src/libmbcommon/src/file.cpp`, the open-with-callbacks composer in
`src/libmbcommon/src/file/callbacks.cpp`, the memory backend in
`src/libmbcommon/src/file/memory.cpp`, and the open callbacks of the
fd, posix and win32 backends.

Callbacks are C function pointers invoked by the core; here a callback
slot holds an abstract token of type `α` (so that "the stored callback
is the one invoked" is expressible) and each operation takes, as an
explicit input, the status the registered callback would return at this
invocation.  Every callback invocation performed by the core is recorded
as an event carrying the token of the slot that fired.
-/

namespace Mb

/-- `FileStatus` from `include/mbcommon/file.h`:
OK = 0, RETRY = -1, UNSUPPORTED = -2, WARN = -3, FAILED = -4, FATAL = -5. -/
inductive FileStatus
  | OK
  | RETRY
  | UNSUPPORTED
  | WARN
  | FAILED
  | FATAL
  deriving DecidableEq, Repr

/-- The integer value of each `FileStatus` enumerator in the C++ enum. -/
def FileStatus.val : FileStatus → Int
  | .OK => 0
  | .RETRY => -1
  | .UNSUPPORTED => -2
  | .WARN => -3
  | .FAILED => -4
  | .FATAL => -5

/-- `ret2 < ret` on the C++ enum compares the underlying integers. -/
def FileStatus.lt (a b : FileStatus) : Bool := a.val < b.val

/-- `ret <= FileStatus::FATAL` on the C++ enum. -/
def FileStatus.leFatal (a : FileStatus) : Bool := a.val ≤ (-5 : Int)

/-- The file handle states (`FileState` in `file_p.h`, used as a bitmask;
only membership tests occur in `file.cpp`, so distinct constructors
model the distinct bits). -/
inductive FileState
  | NEW
  | OPENED
  | CLOSED
  | FATAL
  deriving DecidableEq, Repr

/-- Error-code constants from `namespace FileError` in
`include/mbcommon/file.h`. -/
def FileError.NONE : Int := 0

def FileError.INVALID_ARGUMENT : Int := 1

def FileError.UNSUPPORTED : Int := 2

def FileError.PROGRAMMER_ERROR : Int := 3

def FileError.INTERNAL_ERROR : Int := 4

/-- The fields of `FilePrivate` that the core state machine reads and
writes: the state, the six callback slots, the user-data slot, and the
last error code stored by `set_error`.  A slot value of `none` models a
null function pointer. -/
structure FilePrivate (α : Type) where
  state : FileState
  open_cb : Option α
  close_cb : Option α
  read_cb : Option α
  write_cb : Option α
  seek_cb : Option α
  truncate_cb : Option α
  cb_userdata : Option α
  error_code : Int
  deriving DecidableEq, Repr

/-- A freshly constructed `File`: state `NEW`, all slots null. -/
def FilePrivate.new (α : Type) : FilePrivate α :=
  { state := .NEW, open_cb := none, close_cb := none, read_cb := none,
    write_cb := none, seek_cb := none, truncate_cb := none,
    cb_userdata := none, error_code := FileError.NONE }

/-- A callback invocation performed by the core, carrying the token
stored in the slot that fired and the user-context value the callback
receives (`priv->cb_userdata`). -/
inductive Event (α : Type)
  | openEv (cb : α) (ud : Option α)
  | closeEv (cb : α) (ud : Option α)
  | readEv (cb : α) (ud : Option α)
  | writeEv (cb : α) (ud : Option α)
  | seekEv (cb : α) (ud : Option α)
  | truncEv (cb : α) (ud : Option α)
  deriving DecidableEq, Repr

/-- Result of one core operation: the updated private data, the returned
status, and the callback invocations that occurred, in order. -/
structure OpResult (α : Type) where
  priv : FilePrivate α
  ret : FileStatus
  events : List (Event α)
  deriving DecidableEq, Repr

/-- The `ENSURE_STATE` macro of `file.cpp`: if the current state is not
in the allowed set, store `PROGRAMMER_ERROR`, force state `FATAL` and
return `FileStatus::FATAL`. -/
def ensureStateFail (p : FilePrivate α) : OpResult α :=
  { priv := { p with state := .FATAL,
                     error_code := FileError.PROGRAMMER_ERROR },
    ret := .FATAL, events := [] }

/-- The shared body of the seven `File::set_*_callback` /
`File::set_callback_data` members: `ENSURE_STATE(FileState::NEW)`, then
store the value and return OK.  `upd` performs the store. -/
def setterOp (p : FilePrivate α) (upd : FilePrivate α → FilePrivate α) :
    OpResult α :=
  if p.state = .NEW then
    { priv := upd p, ret := .OK, events := [] }
  else
    ensureStateFail p

/-- The seven setter calls, each carrying the value being stored. -/
inductive SetterOp (α : Type)
  | setOpen (v : Option α)
  | setClose (v : Option α)
  | setRead (v : Option α)
  | setWrite (v : Option α)
  | setSeek (v : Option α)
  | setTrunc (v : Option α)
  | setData (v : Option α)
  deriving DecidableEq, Repr

/-- Dispatch a setter call to the slot it stores into, as in
`File::set_open_callback` .. `File::set_callback_data`. -/
def applySetter (p : FilePrivate α) : SetterOp α → OpResult α
  | .setOpen v => setterOp p (fun q => { q with open_cb := v })
  | .setClose v => setterOp p (fun q => { q with close_cb := v })
  | .setRead v => setterOp p (fun q => { q with read_cb := v })
  | .setWrite v => setterOp p (fun q => { q with write_cb := v })
  | .setSeek v => setterOp p (fun q => { q with seek_cb := v })
  | .setTrunc v => setterOp p (fun q => { q with truncate_cb := v })
  | .setData v => setterOp p (fun q => { q with cb_userdata := v })

/-- Run a sequence of setter calls, collecting each call's returned
status. -/
def runSetters (p : FilePrivate α) :
    List (SetterOp α) → FilePrivate α × List FileStatus
  | [] => (p, [])
  | s :: rest =>
    let r := applySetter p s
    let (p', rs) := runSetters r.priv rest
    (p', r.ret :: rs)

/-- `File::open` (`file.cpp:438-461`).  `openRes` is the status the
registered open callback returns at this invocation; it is unused when
no open callback is registered. -/
def openOp (p : FilePrivate α) (openRes : FileStatus) : OpResult α :=
  if p.state = .NEW then
    let ret := match p.open_cb with
      | some _ => openRes
      | none => FileStatus.OK
    let openEvs : List (Event α) := match p.open_cb with
      | some c => [.openEv c p.cb_userdata]
      | none => []
    let st := if ret = .OK then FileState.OPENED
              else if ret.leFatal then FileState.FATAL
              else p.state
    let closeEvs : List (Event α) := match ret, p.close_cb with
      | .OK, _ => []
      | _, some c => [.closeEv c p.cb_userdata]
      | _, none => []
    { priv := { p with state := st }, ret := ret,
      events := openEvs ++ closeEvs }
  else
    ensureStateFail p

/-- `File::close` (`file.cpp:475-496`).  `closeRes` is the status the
registered close callback returns if it is invoked. -/
def closeOp (p : FilePrivate α) (closeRes : FileStatus) : OpResult α :=
  let ret := if p.state ≠ .CLOSED ∧ p.state ≠ .NEW then
               match p.close_cb with
               | some _ => closeRes
               | none => FileStatus.OK
             else FileStatus.OK
  { priv := { p with state := .CLOSED }, ret := ret,
    events := if p.state ≠ .CLOSED ∧ p.state ≠ .NEW then
                match p.close_cb with
                | some c => [.closeEv c p.cb_userdata]
                | none => []
              else [] }

/-- `File::read` (`file.cpp:527-551`).  `nullPtr` models a null
`bytes_read` argument; `cbRes` is the status the registered read
callback returns if invoked. -/
def readOp (p : FilePrivate α) (nullPtr : Bool) (cbRes : FileStatus) :
    OpResult α :=
  if p.state = .OPENED then
    let (ret, err, evs) : FileStatus × Int × List (Event α) :=
      if nullPtr then
        (.FATAL, FileError.PROGRAMMER_ERROR, [])
      else match p.read_cb with
        | some c => (cbRes, p.error_code, [.readEv c p.cb_userdata])
        | none => (.UNSUPPORTED, FileError.UNSUPPORTED, [])
    let st := if ret.leFatal then FileState.FATAL else p.state
    { priv := { p with state := st, error_code := err }, ret := ret,
      events := evs }
  else
    ensureStateFail p

/-- `File::write` (`file.cpp:576-600`), symmetric to `readOp` with the
`bytes_written` pointer and the write callback. -/
def writeOp (p : FilePrivate α) (nullPtr : Bool) (cbRes : FileStatus) :
    OpResult α :=
  if p.state = .OPENED then
    let (ret, err, evs) : FileStatus × Int × List (Event α) :=
      if nullPtr then
        (.FATAL, FileError.PROGRAMMER_ERROR, [])
      else match p.write_cb with
        | some c => (cbRes, p.error_code, [.writeEv c p.cb_userdata])
        | none => (.UNSUPPORTED, FileError.UNSUPPORTED, [])
    let st := if ret.leFatal then FileState.FATAL else p.state
    { priv := { p with state := st, error_code := err }, ret := ret,
      events := evs }
  else
    ensureStateFail p

/-- `File::seek` (`file.cpp:614-639`): only the status/state/event
behaviour, with `cbRes` the registered seek callback's status. -/
def seekOp (p : FilePrivate α) (cbRes : FileStatus) : OpResult α :=
  if p.state = .OPENED then
    let (ret, err, evs) : FileStatus × Int × List (Event α) :=
      match p.seek_cb with
      | some c => (cbRes, p.error_code, [.seekEv c p.cb_userdata])
      | none => (.UNSUPPORTED, FileError.UNSUPPORTED, [])
    let st := if ret = .OK then p.state
              else if ret.leFatal then FileState.FATAL else p.state
    { priv := { p with state := st, error_code := err }, ret := ret,
      events := evs }
  else
    ensureStateFail p

/-- `File::truncate` (`file.cpp:655-674`). -/
def truncateOp (p : FilePrivate α) (cbRes : FileStatus) : OpResult α :=
  if p.state = .OPENED then
    let (ret, err, evs) : FileStatus × Int × List (Event α) :=
      match p.truncate_cb with
      | some c => (cbRes, p.error_code, [.truncEv c p.cb_userdata])
      | none => (.UNSUPPORTED, FileError.UNSUPPORTED, [])
    let st := if ret.leFatal then FileState.FATAL else p.state
    { priv := { p with state := st, error_code := err }, ret := ret,
      events := evs }
  else
    ensureStateFail p

/-- One call in a handle's lifetime.  Each constructor carries the
statuses the registered callbacks would return at that invocation (and,
for read/write, whether the output-count pointer is null). -/
inductive FileOp
  | fopen (openRes : FileStatus)
  | fclose (closeRes : FileStatus)
  | fread (nullPtr : Bool) (res : FileStatus)
  | fwrite (nullPtr : Bool) (res : FileStatus)
  | fseek (res : FileStatus)
  | ftrunc (res : FileStatus)
  deriving DecidableEq, Repr

/-- Dispatch one lifetime call. -/
def runOp (p : FilePrivate α) : FileOp → OpResult α
  | .fopen r => openOp p r
  | .fclose r => closeOp p r
  | .fread n r => readOp p n r
  | .fwrite n r => writeOp p n r
  | .fseek r => seekOp p r
  | .ftrunc r => truncateOp p r

/-- Run a sequence of lifetime calls, accumulating all callback
invocations in order. -/
def runOps (p : FilePrivate α) :
    List FileOp → FilePrivate α × List (Event α)
  | [] => (p, [])
  | op :: rest =>
    let r := runOp p op
    let (p', evs) := runOps r.priv rest
    (p', r.events ++ evs)

/-- `File::~File` (`file.cpp:291-298`): if the state is not `CLOSED`,
`close()` is called and its result discarded.  Returns the callback
invocations the destructor performs. -/
def destroyEvents (p : FilePrivate α) : List (Event α) :=
  if p.state ≠ .CLOSED then (closeOp p .OK).events else []

/-- Number of close-callback invocations in an event list. -/
def countClose : List (Event α) → Nat
  | [] => 0
  | .closeEv _ _ :: rest => 1 + countClose rest
  | _ :: rest => countClose rest

/-- All close-callback invocations over a full lifetime: a sequence of
calls followed by destruction. -/
def lifetimeCloseCount (p : FilePrivate α) (ops : List FileOp) : Nat :=
  let (p', evs) := runOps p ops
  countClose evs + countClose (destroyEvents p')

/-- `if (ret2 < ret) ret = ret2;` from `callbacks.cpp`. -/
def accMin (ret ret2 : FileStatus) : FileStatus :=
  if ret2.lt ret then ret2 else ret

/-- The minimum (most severe) of two statuses per the total order
`OK > RETRY > UNSUPPORTED > WARN > FAILED > FATAL`. -/
def statusMin (a b : FileStatus) : FileStatus :=
  if a.val ≤ b.val then a else b

/-- `file_open_callbacks` (`callbacks.cpp:47-100`): call the seven
setters and then `open()`, tracking the running minimum of the returned
statuses.  `openRes` is the status the open callback would return if it
is invoked. -/
def file_open_callbacks (p : FilePrivate α)
    (ocb ccb rcb wcb scb tcb ud : Option α) (openRes : FileStatus) :
    OpResult α :=
  let r1 := applySetter p (.setOpen ocb)
  let m1 := accMin .OK r1.ret
  let r2 := applySetter r1.priv (.setClose ccb)
  let m2 := accMin m1 r2.ret
  let r3 := applySetter r2.priv (.setRead rcb)
  let m3 := accMin m2 r3.ret
  let r4 := applySetter r3.priv (.setWrite wcb)
  let m4 := accMin m3 r4.ret
  let r5 := applySetter r4.priv (.setSeek scb)
  let m5 := accMin m4 r5.ret
  let r6 := applySetter r5.priv (.setTrunc tcb)
  let m6 := accMin m5 r6.ret
  let r7 := applySetter r6.priv (.setData ud)
  let m7 := accMin m6 r7.ret
  let r8 := openOp r7.priv openRes
  let m8 := accMin m7 r8.ret
  { priv := r8.priv, ret := m8, events := r8.events }

/-! ## Memory backend (`src/libmbcommon/src/file/memory.cpp`) -/

/-- `SIZE_MAX` for the 64-bit `size_t` of the target platforms. -/
def SIZE_MAX : Nat := 2 ^ 64 - 1

/-- `MemoryFileCtx`: the buffer contents, logical size, logical
position, fixed-size flag, and the caller-supplied pointer/size output
slots of the dynamic variant (`none` models a null slot pointer; a
present slot holds the caller's current view of the buffer / size,
which aliases the context's buffer). -/
structure MemoryFileCtx where
  data : List Nat
  size : Nat
  pos : Nat
  fixed_size : Bool
  data_ptr : Option (List Nat)
  size_ptr : Option Nat
  deriving DecidableEq, Repr

/-- Result of a memory-backend callback: updated context, returned
status, the value stored through the output-count / output-offset
pointer (when stored), and the error code passed to `set_error` (when
called). -/
structure MemCbResult where
  ctx : MemoryFileCtx
  ret : FileStatus
  out : Option Nat
  err : Option Int
  deriving DecidableEq, Repr

/-- `memcpy(data + pos, buf, buf.length)` on a byte list: meaningful
when `pos + buf.length ≤ data.length`. -/
def memWrite (data : List Nat) (pos : Nat) (buf : List Nat) : List Nat :=
  data.take pos ++ buf ++ data.drop (pos + buf.length)

/-- `memory_write_cb` (`memory.cpp:74-121`).  `buf` holds the `size`
bytes to be written (`size = buf.length`).  `reallocOk` is whether the
`realloc` call succeeds when growth is needed; `errno` is its error on
failure. -/
def memory_write_cb (ctx : MemoryFileCtx) (buf : List Nat)
    (reallocOk : Bool) (errno : Int) : MemCbResult :=
  let size := buf.length
  if ctx.pos > SIZE_MAX - size then
    { ctx := ctx, ret := .FAILED, out := none,
      err := some FileError.INVALID_ARGUMENT }
  else
    let desired_size := ctx.pos + size
    if desired_size > ctx.size then
      if ctx.fixed_size then
        let to_write := if ctx.pos ≤ ctx.size then ctx.size - ctx.pos else 0
        let data' := memWrite ctx.data ctx.pos (buf.take to_write)
        { ctx := { ctx with data := data', pos := ctx.pos + to_write },
          ret := .OK, out := some to_write, err := none }
      else if reallocOk = false then
        { ctx := ctx, ret := .FAILED, out := none, err := some (-errno) }
      else
        let grown := ctx.data ++ List.replicate (desired_size - ctx.size) 0
        let data' := memWrite grown ctx.pos buf
        { ctx := { ctx with
            data := data', size := desired_size,
            pos := ctx.pos + size,
            data_ptr := ctx.data_ptr.map (fun _ => data'),
            size_ptr := ctx.size_ptr.map (fun _ => desired_size) },
          ret := .OK, out := some size, err := none }
    else
      let data' := memWrite ctx.data ctx.pos buf
      { ctx := { ctx with data := data', pos := ctx.pos + size },
        ret := .OK, out := some size, err := none }

/-- `SEEK_SET`, `SEEK_CUR`, `SEEK_END` from `stdio.h`. -/
def SEEK_SET : Int := 0

def SEEK_CUR : Int := 1

def SEEK_END : Int := 2

/-- `memory_seek_cb` (`memory.cpp:123-167`).  `offset` is the `int64_t`
offset; `whence` the C `int` origin. -/
def memory_seek_cb (ctx : MemoryFileCtx) (offset : Int) (whence : Int) :
    MemCbResult :=
  if whence = SEEK_SET then
    if offset < 0 ∨ offset.toNat > SIZE_MAX then
      { ctx := ctx, ret := .FAILED, out := none,
        err := some FileError.INVALID_ARGUMENT }
    else
      { ctx := { ctx with pos := offset.toNat }, ret := .OK,
        out := some offset.toNat, err := none }
  else if whence = SEEK_CUR then
    if (offset < 0 ∧ (-offset).toNat > ctx.pos)
        ∨ (offset > 0 ∧ offset.toNat > SIZE_MAX - ctx.pos) then
      { ctx := ctx, ret := .FAILED, out := none,
        err := some FileError.INVALID_ARGUMENT }
    else
      let newPos := ((ctx.pos : Int) + offset).toNat
      { ctx := { ctx with pos := newPos }, ret := .OK,
        out := some newPos, err := none }
  else if whence = SEEK_END then
    if (offset < 0 ∧ (-offset).toNat > ctx.size)
        ∨ (offset > 0 ∧ offset.toNat > SIZE_MAX - ctx.size) then
      { ctx := ctx, ret := .FAILED, out := none,
        err := some FileError.INVALID_ARGUMENT }
    else
      let newPos := ((ctx.size : Int) + offset).toNat
      { ctx := { ctx with pos := newPos }, ret := .OK,
        out := some newPos, err := none }
  else
    { ctx := ctx, ret := .FAILED, out := none,
      err := some FileError.INVALID_ARGUMENT }

/-! ## Backend open callbacks (fd, posix, win32) -/

/-- `EISDIR` on the POSIX targets. -/
def EISDIR : Int := 21

/-- Outcome of a backend open callback: the returned status and the
error code passed to `set_error` (when called). -/
structure OpenCbResult where
  ret : FileStatus
  err : Option Int
  deriving DecidableEq, Repr

/-- System-call oracle for `fd_open_cb`: the results the `FdFileFuncs`
capability returns, plus whether the stat buffer reports a directory. -/
structure FdOpenSys where
  openFd : Int
  openErrno : Int
  fstatRet : Int
  fstatErrno : Int
  isDir : Bool
  deriving DecidableEq, Repr

/-- `fd_open_cb` (`fd.cpp:99-128`).  `hasFilename` is whether
`ctx->filename` is non-empty (open-by-path) as opposed to a
caller-supplied descriptor. -/
def fd_open_cb (hasFilename : Bool) (sys : FdOpenSys) : OpenCbResult :=
  if hasFilename ∧ sys.openFd < 0 then
    { ret := .FAILED, err := some (-sys.openErrno) }
  else if sys.fstatRet < 0 then
    { ret := .FAILED, err := some (-sys.fstatErrno) }
  else if sys.isDir then
    { ret := .FAILED, err := some (-EISDIR) }
  else
    { ret := .OK, err := none }

/-- System-call oracle for `posix_open_cb` (buffered-stream backend). -/
structure PosixOpenSys where
  fopenOk : Bool
  fopenErrno : Int
  filenoFd : Int
  fstatRet : Int
  fstatErrno : Int
  isDir : Bool
  isReg : Bool
  isBlk : Bool
  deriving DecidableEq, Repr

/-- Outcome of `posix_open_cb`, including the `can_seek` flag it sets. -/
structure PosixOpenResult where
  ret : FileStatus
  err : Option Int
  canSeek : Bool
  deriving DecidableEq, Repr

/-- `posix_open_cb` (`posix.cpp:117-160`, Linux build: block devices
also count as seekable). -/
def posix_open_cb (hasFilename : Bool) (sys : PosixOpenSys) :
    PosixOpenResult :=
  if hasFilename ∧ sys.fopenOk = false then
    { ret := .FAILED, err := some (-sys.fopenErrno), canSeek := false }
  else if sys.filenoFd ≥ 0 then
    if sys.fstatRet < 0 then
      { ret := .FAILED, err := some (-sys.fstatErrno), canSeek := false }
    else if sys.isDir then
      { ret := .FAILED, err := some (-EISDIR), canSeek := false }
    else
      { ret := .OK, err := none, canSeek := sys.isReg || sys.isBlk }
  else
    { ret := .OK, err := none, canSeek := false }

/-- System-call oracle for `win32_open_cb` (platform-handle backend).
`isDir` records whether the underlying object is a directory; the
callback never queries it (the code performs no stat and no directory
check). -/
structure Win32OpenSys where
  createFileOk : Bool
  lastError : Int
  isDir : Bool
  deriving DecidableEq, Repr

/-- `win32_open_cb` (`win32.cpp:128-145`): open by path via
`CreateFileW` when a filename is present; otherwise the caller-supplied
handle is used as-is.  No stat, no directory check. -/
def win32_open_cb (hasFilename : Bool) (sys : Win32OpenSys) :
    OpenCbResult :=
  if hasFilename ∧ sys.createFileOk = false then
    { ret := .FAILED, err := some (-sys.lastError) }
  else
    { ret := .OK, err := none }

end Mb

/-! ## Claim theorems -/

namespace Mb

/-- C2: for a `File` in state NEW, `open()` invokes the registered open
callback with the stored user context (returning OK if none is
registered); if the callback returns OK the state becomes OPENED; if it
returns a fatal-level status the state becomes FATAL; whenever the
result is not OK the registered close callback (if any) is invoked
before `open()` returns; and `open()` returns the open callback's
result unchanged. -/
theorem open_spec {α : Type} (p : FilePrivate α) (openRes : FileStatus)
    (h : p.state = .NEW) :
    ((openOp p openRes).ret = (if p.open_cb.isSome then openRes else .OK)) ∧
    (∀ c, p.open_cb = some c →
      (openOp p openRes).events.head? =
        some (Event.openEv c p.cb_userdata)) ∧
    ((openOp p openRes).ret = .OK →
      (openOp p openRes).priv.state = .OPENED) ∧
    ((openOp p openRes).ret.leFatal = true →
      (openOp p openRes).priv.state = .FATAL) ∧
    (∀ c, (openOp p openRes).ret ≠ .OK → p.close_cb = some c →
      Event.closeEv c p.cb_userdata ∈ (openOp p openRes).events) ∧
    ((openOp p openRes).ret = .OK →
      countClose (openOp p openRes).events = 0) := by
  cases hcb : p.open_cb with
  | none =>
    cases hc : p.close_cb <;>
      simp [openOp, h, hcb, hc, FileStatus.leFatal, FileStatus.val,
        countClose]
  | some c =>
    cases hc : p.close_cb <;> cases openRes <;>
      simp [openOp, h, hcb, hc, FileStatus.leFatal, FileStatus.val,
        countClose]

/-- Witness for C2: a NEW handle with registered callbacks whose open
callback reports FAILED gets that result back unchanged. -/
theorem open_spec_witness :
    ({ FilePrivate.new Nat with open_cb := some 1, close_cb := some 2 }
        : FilePrivate Nat).state = FileState.NEW ∧
    (openOp ({ FilePrivate.new Nat with
        open_cb := some 1, close_cb := some 2 } : FilePrivate Nat)
      FileStatus.FAILED).ret = FileStatus.FAILED := by
  refine ⟨by decide, ?_⟩
  have h := open_spec
    ({ FilePrivate.new Nat with open_cb := some 1, close_cb := some 2 }
      : FilePrivate Nat) FileStatus.FAILED (by decide)
  rw [h.1]
  decide

/-- C3 counterexample: `close()` on a NEW handle is not a no-op — it
moves the state to CLOSED, observably: a subsequent setter call fails
with FATAL instead of succeeding. -/
theorem close_on_new_changes_state :
    (closeOp (FilePrivate.new Nat) .OK).priv.state = FileState.CLOSED ∧
    (closeOp (FilePrivate.new Nat) .OK).priv ≠ FilePrivate.new Nat ∧
    (applySetter (closeOp (FilePrivate.new Nat) .OK).priv
      (SetterOp.setOpen (some 1))).ret = FileStatus.FATAL := by decide

/-- C3 as amended: `close()` in state NEW or CLOSED returns OK without
invoking the close callback (but sets the state to CLOSED, so on a NEW
handle it is not a pure no-op); in state OPENED or FATAL it invokes the
close callback if registered and returns its result (OK if none); and
in every case the state afterwards is CLOSED — never FATAL. -/
theorem close_spec {α : Type} (p : FilePrivate α) (closeRes : FileStatus) :
    (closeOp p closeRes).priv.state = .CLOSED ∧
    ((p.state = .NEW ∨ p.state = .CLOSED) →
      (closeOp p closeRes).ret = .OK ∧ (closeOp p closeRes).events = []) ∧
    ((p.state = .OPENED ∨ p.state = .FATAL) →
      (∀ c, p.close_cb = some c →
        (closeOp p closeRes).ret = closeRes ∧
        (closeOp p closeRes).events = [Event.closeEv c p.cb_userdata]) ∧
      (p.close_cb = none →
        (closeOp p closeRes).ret = .OK ∧
        (closeOp p closeRes).events = [])) := by
  cases hs : p.state <;> cases hc : p.close_cb <;>
    simp [closeOp, hs, hc]

/-- Witness for C3: closing an OPENED handle whose close callback
reports FAILED returns FAILED and still leaves the state CLOSED. -/
theorem close_spec_witness :
    (closeOp ({ FilePrivate.new Nat with
        state := .OPENED, close_cb := some 2 } : FilePrivate Nat)
      FileStatus.FAILED).priv.state = FileState.CLOSED ∧
    (closeOp ({ FilePrivate.new Nat with
        state := .OPENED, close_cb := some 2 } : FilePrivate Nat)
      FileStatus.FAILED).ret = FileStatus.FAILED := by
  have h := close_spec ({ FilePrivate.new Nat with
    state := .OPENED, close_cb := some 2 } : FilePrivate Nat)
    FileStatus.FAILED
  exact ⟨h.1, ((h.2.2 (Or.inl rfl)).1 2 rfl).1⟩

/-- C1 at its failing input: on a handle with registered open and close
callbacks, an `open()` whose open callback returns FATAL runs the close
callback once and leaves the state FATAL, from which the destructor's
`close()` runs the close callback a second time — two invocations over
the lifetime, not exactly one.  (A lifetime with no calls at all yields
zero invocations.) -/
theorem close_cb_runs_twice_after_fatal_open :
    lifetimeCloseCount
      ({ FilePrivate.new Nat with open_cb := some 1, close_cb := some 2 })
      [FileOp.fopen FileStatus.FATAL] = 2 ∧
    lifetimeCloseCount
      ({ FilePrivate.new Nat with open_cb := some 1, close_cb := some 2 })
      [] = 0 := by decide

/-- C7: every callback setter and `set_callback_data` succeeds with OK
in state NEW — any sequence of setter calls before `open()` all succeed
and leave the state NEW, each storing its value, and the stored open
callback is the one `open()` later invokes with the stored context —
while in any other state every setter returns FATAL, stores error code
`PROGRAMMER_ERROR` and forces the state to FATAL. -/
theorem setter_spec {α : Type} :
    (∀ (p : FilePrivate α) (ops : List (SetterOp α)), p.state = .NEW →
      (runSetters p ops).2 = List.replicate ops.length .OK ∧
      (runSetters p ops).1.state = .NEW) ∧
    (∀ (p : FilePrivate α) (s : SetterOp α), p.state ≠ .NEW →
      (applySetter p s).ret = .FATAL ∧
      (applySetter p s).priv.state = .FATAL ∧
      (applySetter p s).priv.error_code = FileError.PROGRAMMER_ERROR) ∧
    (∀ (p : FilePrivate α) (v : Option α), p.state = .NEW →
      (applySetter p (.setOpen v)).priv.open_cb = v ∧
      (applySetter p (.setClose v)).priv.close_cb = v ∧
      (applySetter p (.setRead v)).priv.read_cb = v ∧
      (applySetter p (.setWrite v)).priv.write_cb = v ∧
      (applySetter p (.setSeek v)).priv.seek_cb = v ∧
      (applySetter p (.setTrunc v)).priv.truncate_cb = v ∧
      (applySetter p (.setData v)).priv.cb_userdata = v) ∧
    (∀ (p : FilePrivate α) (c : α) (r : FileStatus), p.state = .NEW →
      (openOp ((applySetter p (.setOpen (some c))).priv) r).events.head? =
        some (Event.openEv c p.cb_userdata)) := by
  refine ⟨?_, ?_, ?_, ?_⟩
  · intro p ops
    induction ops generalizing p with
    | nil => intro h; exact ⟨rfl, h⟩
    | cons s rest ih =>
      intro h
      have hstore : (applySetter p s).ret = .OK ∧
          (applySetter p s).priv.state = .NEW := by
        cases s <;> simp [applySetter, setterOp, h]
      have := ih (applySetter p s).priv hstore.2
      simp [runSetters, hstore.1, this.1, this.2, List.replicate_succ]
  · intro p s h
    cases s <;> simp [applySetter, setterOp, ensureStateFail, h]
  · intro p v h
    simp [applySetter, setterOp, h]
  · intro p c r h
    simp [applySetter, setterOp, openOp, h]

/-- Witness for C7: a concrete two-setter sequence on a fresh handle
returns OK twice. -/
theorem setter_spec_witness :
    (FilePrivate.new Nat).state = FileState.NEW ∧
    (runSetters (FilePrivate.new Nat)
      [SetterOp.setOpen (some 1), SetterOp.setClose (some 2)]).2 =
      [FileStatus.OK, FileStatus.OK] := by
  refine ⟨rfl, ?_⟩
  have h := (setter_spec (α := Nat)).1 (FilePrivate.new Nat)
    [SetterOp.setOpen (some 1), SetterOp.setClose (some 2)] rfl
  simpa using h.1

/-- On a NEW handle with a registered open callback, `open()` first
invokes that callback with the stored user context. -/
theorem openOp_events_head {α : Type} (q : FilePrivate α) (r : FileStatus)
    (c : α) (h : q.state = .NEW) (hc : q.open_cb = some c) :
    (openOp q r).events.head? = some (Event.openEv c q.cb_userdata) := by
  simp [openOp, h, hc]

/-- On a NEW handle with registered open and close callbacks, a failing
`open()` invokes the close callback. -/
theorem openOp_close_mem {α : Type} (q : FilePrivate α) (r : FileStatus)
    (c d : α) (h : q.state = .NEW) (hd : q.open_cb = some d)
    (hr : r ≠ .OK) (hc : q.close_cb = some c) :
    Event.closeEv c q.cb_userdata ∈ (openOp q r).events := by
  cases r <;> simp_all [openOp]

/-- C10: when the open callback returns a non-OK status strictly above
the fatal level (RETRY, UNSUPPORTED, WARN or FAILED), the state remains
NEW after `open()` returns: subsequent setter calls still succeed, and a
second `open()` invokes the registered open callback again and, on
failure, the close callback again. -/
theorem open_nonfatal_fail_keeps_new {α : Type} (p : FilePrivate α)
    (r r2 : FileStatus) (h : p.state = .NEW) (hcb : p.open_cb.isSome = true)
    (hr : r = .RETRY ∨ r = .UNSUPPORTED ∨ r = .WARN ∨ r = .FAILED) :
    (openOp p r).priv.state = .NEW ∧
    (∀ s : SetterOp α, (applySetter (openOp p r).priv s).ret = .OK) ∧
    (∀ c, p.open_cb = some c →
      (openOp (openOp p r).priv r2).events.head? =
        some (Event.openEv c p.cb_userdata)) ∧
    (∀ c, r2 ≠ .OK → p.close_cb = some c →
      Event.closeEv c p.cb_userdata ∈ (openOp (openOp p r).priv r2).events)
    := by
  obtain ⟨c0, hc0⟩ := Option.isSome_iff_exists.mp hcb
  have hstate : (openOp p r).priv.state = .NEW := by
    rcases hr with h1 | h1 | h1 | h1 <;>
      simp [openOp, h, hc0, h1, FileStatus.leFatal, FileStatus.val]
  have hopen : (openOp p r).priv.open_cb = p.open_cb := by
    simp [openOp, h]
  have hclose : (openOp p r).priv.close_cb = p.close_cb := by
    simp [openOp, h]
  have hud : (openOp p r).priv.cb_userdata = p.cb_userdata := by
    simp [openOp, h]
  refine ⟨hstate, ?_, ?_, ?_⟩
  · intro s
    cases s <;> simp [applySetter, setterOp, hstate]
  · intro c hc
    have := openOp_events_head ((openOp p r).priv) r2 c hstate
      (hopen.trans hc)
    rwa [hud] at this
  · intro c hr2 hc
    have := openOp_close_mem ((openOp p r).priv) r2 c c0 hstate
      (hopen.trans hc0) hr2 (hclose.trans hc)
    rwa [hud] at this

/-- Witness for C10: a FAILED open callback on a fresh handle with
registered callbacks leaves the state NEW. -/
theorem open_nonfatal_fail_keeps_new_witness :
    ({ FilePrivate.new Nat with
        open_cb := some 1, close_cb := some 2 } : FilePrivate Nat).state =
      FileState.NEW ∧
    (openOp ({ FilePrivate.new Nat with
        open_cb := some 1, close_cb := some 2 } : FilePrivate Nat)
      FileStatus.FAILED).priv.state = FileState.NEW := by
  refine ⟨by decide, ?_⟩
  exact (open_nonfatal_fail_keeps_new
    ({ FilePrivate.new Nat with open_cb := some 1, close_cb := some 2 })
    FileStatus.FAILED FileStatus.OK (by decide) (by decide)
    (Or.inr (Or.inr (Or.inr rfl)))).1

/-- C8: for a `File` in state OPENED, `read()` with a null `bytes_read`
pointer and `write()` with a null `bytes_written` pointer return FATAL,
store error code `PROGRAMMER_ERROR`, force the state to FATAL, and never
invoke the registered read/write callback. -/
theorem read_write_null_ptr_spec {α : Type} (p : FilePrivate α)
    (cbRes : FileStatus) (h : p.state = .OPENED) :
    (readOp p true cbRes).ret = .FATAL ∧
    (readOp p true cbRes).priv.state = .FATAL ∧
    (readOp p true cbRes).priv.error_code = FileError.PROGRAMMER_ERROR ∧
    (readOp p true cbRes).events = [] ∧
    (writeOp p true cbRes).ret = .FATAL ∧
    (writeOp p true cbRes).priv.state = .FATAL ∧
    (writeOp p true cbRes).priv.error_code = FileError.PROGRAMMER_ERROR ∧
    (writeOp p true cbRes).events = [] := by
  simp [readOp, writeOp, h, FileStatus.leFatal, FileStatus.val]

/-- Witness for C8: a concrete OPENED handle with registered read and
write callbacks, read with a null count pointer. -/
theorem read_write_null_ptr_spec_witness :
    ({ FilePrivate.new Nat with
        state := .OPENED, read_cb := some 3, write_cb := some 4 }
      : FilePrivate Nat).state = FileState.OPENED ∧
    (readOp ({ FilePrivate.new Nat with
        state := .OPENED, read_cb := some 3, write_cb := some 4 }
      : FilePrivate Nat) true FileStatus.OK).ret = FileStatus.FATAL := by
  refine ⟨by decide, ?_⟩
  exact (read_write_null_ptr_spec ({ FilePrivate.new Nat with
    state := .OPENED, read_cb := some 3, write_cb := some 4 })
    FileStatus.OK (by decide)).1

/-- `accMin` (the code's running-minimum step) computes the minimum per
the status total order. -/
theorem accMin_eq_statusMin (a b : FileStatus) :
    accMin a b = statusMin a b := by
  cases a <;> cases b <;> decide

/-- OK is the top of the status order. -/
theorem statusMin_ok_left (a : FileStatus) : statusMin .OK a = a := by
  cases a <;> decide

/-- C9: for every combination of callback values, context pointer and
starting state, `file_open_callbacks` calls the seven setters and then
`open()` and returns the minimum (most severe, per the total status
order) of all eight individual results. -/
theorem file_open_callbacks_is_min {α : Type} (p : FilePrivate α)
    (ocb ccb rcb wcb scb tcb ud : Option α) (openRes : FileStatus) :
    (file_open_callbacks p ocb ccb rcb wcb scb tcb ud openRes).ret =
      (let r1 := applySetter p (.setOpen ocb)
       let r2 := applySetter r1.priv (.setClose ccb)
       let r3 := applySetter r2.priv (.setRead rcb)
       let r4 := applySetter r3.priv (.setWrite wcb)
       let r5 := applySetter r4.priv (.setSeek scb)
       let r6 := applySetter r5.priv (.setTrunc tcb)
       let r7 := applySetter r6.priv (.setData ud)
       let r8 := openOp r7.priv openRes
       [r2.ret, r3.ret, r4.ret, r5.ret, r6.ret, r7.ret, r8.ret].foldl
         statusMin r1.ret) := by
  simp only [file_open_callbacks, accMin_eq_statusMin, statusMin_ok_left,
    List.foldl]

/-- C6: the memory backend's seek fails with error code
`INVALID_ARGUMENT` and an unchanged context (in particular an unchanged
logical position) on every out-of-range request: a positive `SEEK_END`
offset beyond `SIZE_MAX - size`, a negative `SEEK_END` offset beyond the
size, a negative `SEEK_SET` offset, and a positive/negative `SEEK_CUR`
offset that would overflow/underflow the position. -/
theorem memory_seek_invalid_spec (ctx : MemoryFileCtx) (offset : Int) :
    let fail : MemCbResult :=
      { ctx := ctx, ret := .FAILED, out := none,
        err := some FileError.INVALID_ARGUMENT }
    (offset > 0 → offset.toNat > SIZE_MAX - ctx.size →
      memory_seek_cb ctx offset SEEK_END = fail) ∧
    (offset < 0 → (-offset).toNat > ctx.size →
      memory_seek_cb ctx offset SEEK_END = fail) ∧
    (offset < 0 → memory_seek_cb ctx offset SEEK_SET = fail) ∧
    (offset > 0 → offset.toNat > SIZE_MAX - ctx.pos →
      memory_seek_cb ctx offset SEEK_CUR = fail) ∧
    (offset < 0 → (-offset).toNat > ctx.pos →
      memory_seek_cb ctx offset SEEK_CUR = fail) := by
  refine ⟨?_, ?_, ?_, ?_, ?_⟩ <;> intro h1 <;> try intro h2
  all_goals
    simp [memory_seek_cb, SEEK_SET, SEEK_CUR, SEEK_END, h1]
  all_goals simp_all

/-- Witness for C6: a buffer of size `2^63 + 1` with a `SEEK_END` offset
of `2^63 - 1` overflows `SIZE_MAX` and fails without moving the
position. -/
theorem memory_seek_invalid_spec_witness :
    memory_seek_cb
      { data := [], size := 2 ^ 63 + 1, pos := 5, fixed_size := false,
        data_ptr := none, size_ptr := none } (2 ^ 63 - 1) SEEK_END =
      { ctx := {
          data := [], size := 2 ^ 63 + 1, pos := 5,
          fixed_size := false, data_ptr := none, size_ptr := none },
        ret := FileStatus.FAILED, out := none,
        err := some FileError.INVALID_ARGUMENT } :=
  (memory_seek_invalid_spec
    { data := [], size := 2 ^ 63 + 1, pos := 5, fixed_size := false,
      data_ptr := none, size_ptr := none } (2 ^ 63 - 1)).1
    (by decide) (by decide)

/-- Growing the buffer to `pos + buf.length` and writing `buf` at `pos`
yields a buffer of exactly that length. -/
theorem memWrite_grow_length (data buf : List Nat) (pos sz : Nat)
    (hlen : data.length = sz) (hgrow : sz < pos + buf.length) :
    (memWrite (data ++ List.replicate (pos + buf.length - sz) 0) pos
      buf).length = pos + buf.length := by
  simp [memWrite, List.length_take, List.length_drop]
  omega

/-- In the grown buffer, the final `drop` of `memWrite` is empty. -/
theorem memWrite_grow_eq (data buf : List Nat) (pos sz : Nat)
    (hlen : data.length = sz) (hgrow : sz < pos + buf.length) :
    memWrite (data ++ List.replicate (pos + buf.length - sz) 0) pos buf =
      (data ++ List.replicate (pos + buf.length - sz) 0).take pos ++ buf
    := by
  rw [memWrite, List.drop_eq_nil_of_le (by simp; omega), List.append_nil]

/-- The gap `[sz, pos)` of the grown buffer is zero-filled. -/
theorem memWrite_grow_gap (data buf : List Nat) (pos sz i : Nat)
    (hlen : data.length = sz) (hgrow : sz < pos + buf.length)
    (h1 : sz ≤ i) (h2 : i < pos) :
    (memWrite (data ++ List.replicate (pos + buf.length - sz) 0) pos
      buf).get? i = some 0 := by
  have ht : ((data ++ List.replicate (pos + buf.length - sz) 0).take
      pos).length = pos := by simp [List.length_take]; omega
  rw [memWrite_grow_eq data buf pos sz hlen hgrow,
    List.get?_append (by omega), List.get?_take h2,
    List.get?_append_right (by omega), hlen]
  simp only [List.getElem?_replicate, List.get?_eq_getElem?]
  rw [if_pos (by omega)]

/-- The written range `[pos, pos + buf.length)` of the grown buffer
holds exactly `buf`. -/
theorem memWrite_grow_written (data buf : List Nat) (pos sz i : Nat)
    (hlen : data.length = sz) (hgrow : sz < pos + buf.length)
    (h : i < buf.length) :
    (memWrite (data ++ List.replicate (pos + buf.length - sz) 0) pos
      buf).get? (pos + i) = buf.get? i := by
  have ht : ((data ++ List.replicate (pos + buf.length - sz) 0).take
      pos).length = pos := by simp [List.length_take]; omega
  rw [memWrite_grow_eq data buf pos sz hlen hgrow,
    List.get?_append_right (by omega), ht, Nat.add_sub_cancel_left]

/-- C5: a dynamic-buffer write past the end (no `size_t` overflow) grows
the buffer to exactly `pos + size`, zero-fills the gap
`[old_size, pos)`, writes all `size` bytes at `pos`, updates the
caller-supplied pointer/size slots when present, and reports all bytes
written; a write where `pos + size` would overflow `size_t` fails with
error code `INVALID_ARGUMENT` before resizing, leaving the context
unchanged. -/
theorem memory_write_spec (ctx : MemoryFileCtx) (buf : List Nat)
    (errno : Int) :
    ((ctx.data.length = ctx.size → ctx.fixed_size = false →
      ctx.size < ctx.pos + buf.length → ¬ ctx.pos > SIZE_MAX - buf.length →
      (memory_write_cb ctx buf true errno).ret = .OK ∧
      (memory_write_cb ctx buf true errno).out = some buf.length ∧
      (memory_write_cb ctx buf true errno).ctx.size =
        ctx.pos + buf.length ∧
      (memory_write_cb ctx buf true errno).ctx.data.length =
        ctx.pos + buf.length ∧
      (∀ i, ctx.size ≤ i → i < ctx.pos →
        (memory_write_cb ctx buf true errno).ctx.data.get? i = some 0) ∧
      (∀ i, i < buf.length →
        (memory_write_cb ctx buf true errno).ctx.data.get? (ctx.pos + i) =
          buf.get? i) ∧
      (ctx.data_ptr.isSome →
        (memory_write_cb ctx buf true errno).ctx.data_ptr =
          some (memory_write_cb ctx buf true errno).ctx.data) ∧
      (ctx.size_ptr.isSome →
        (memory_write_cb ctx buf true errno).ctx.size_ptr =
          some (memory_write_cb ctx buf true errno).ctx.size)) ∧
     (ctx.pos > SIZE_MAX - buf.length →
      memory_write_cb ctx buf true errno =
        { ctx := ctx, ret := .FAILED, out := none,
          err := some FileError.INVALID_ARGUMENT })) := by
  constructor
  · intro hlen hfix hgrow hnoov
    have hw : memory_write_cb ctx buf true errno =
        { ctx := { ctx with
            data := memWrite (ctx.data ++
              List.replicate (ctx.pos + buf.length - ctx.size) 0)
              ctx.pos buf,
            size := ctx.pos + buf.length,
            pos := ctx.pos + buf.length,
            data_ptr := ctx.data_ptr.map (fun _ => memWrite (ctx.data ++
              List.replicate (ctx.pos + buf.length - ctx.size) 0)
              ctx.pos buf),
            size_ptr := ctx.size_ptr.map
              (fun _ => ctx.pos + buf.length) },
          ret := .OK, out := some buf.length, err := none } := by
      simp [memory_write_cb, hnoov, hgrow, hfix]
    rw [hw]
    refine ⟨rfl, rfl, rfl, ?_, ?_, ?_, ?_, ?_⟩
    · exact memWrite_grow_length ctx.data buf ctx.pos ctx.size hlen hgrow
    · intro i h1 h2
      exact memWrite_grow_gap ctx.data buf ctx.pos ctx.size i
        hlen hgrow h1 h2
    · intro i h
      exact memWrite_grow_written ctx.data buf ctx.pos ctx.size i
        hlen hgrow h
    · intro h
      obtain ⟨x, hx⟩ := Option.isSome_iff_exists.mp h
      simp [hx]
    · intro h
      obtain ⟨x, hx⟩ := Option.isSome_iff_exists.mp h
      simp [hx]
  · intro hov
    simp [memory_write_cb, hov]

/-- Witness for C5: writing `[9, 9, 9]` at position 4 of a dynamic
two-byte buffer `[7, 7]` grows it to `[7, 7, 0, 0, 9, 9, 9]` and
updates the caller slots. -/
theorem memory_write_spec_witness :
    (memory_write_cb
      { data := [7, 7], size := 2, pos := 4, fixed_size := false,
        data_ptr := some [7, 7], size_ptr := some 2 } [9, 9, 9] true 12).out
      = some 3 ∧
    (memory_write_cb
      { data := [7, 7], size := 2, pos := 4, fixed_size := false,
        data_ptr := some [7, 7], size_ptr := some 2 } [9, 9, 9] true
      12).ctx.size = 7 := by
  have h := (memory_write_spec
    { data := [7, 7], size := 2, pos := 4, fixed_size := false,
      data_ptr := some [7, 7], size_ptr := some 2 } [9, 9, 9] 12).1
    (by decide) (by decide) (by decide) (by decide)
  exact ⟨h.2.1, h.2.2.1⟩

/-- C4 counterexample: the platform-handle (win32) backend performs no
stat and no directory check — opening a resource that is a directory
succeeds with no error stored, both when opening by path and when
wrapping a caller-supplied handle. -/
theorem win32_open_ignores_directory :
    win32_open_cb true
      { createFileOk := true, lastError := 5, isDir := true } =
      { ret := FileStatus.OK, err := none } ∧
    win32_open_cb false
      { createFileOk := true, lastError := 5, isDir := true } =
      { ret := FileStatus.OK, err := none } := by decide

/-- C4 as amended: the descriptor (fd) and buffered-stream (posix)
backends fail with the negative `EISDIR` code stored as the last error
whenever the acquired resource stats as a directory; the platform-handle
(win32) backend performs no such check. -/
theorem fd_posix_open_directory_fails (hasFn hasFn2 : Bool)
    (fdSys : FdOpenSys) (pxSys : PosixOpenSys)
    (h1 : ¬ (hasFn = true ∧ fdSys.openFd < 0))
    (h2 : 0 ≤ fdSys.fstatRet) (h3 : fdSys.isDir = true)
    (h4 : ¬ (hasFn2 = true ∧ pxSys.fopenOk = false))
    (h5 : 0 ≤ pxSys.filenoFd) (h6 : 0 ≤ pxSys.fstatRet)
    (h7 : pxSys.isDir = true) :
    fd_open_cb hasFn fdSys =
      { ret := FileStatus.FAILED, err := some (-EISDIR) } ∧
    (posix_open_cb hasFn2 pxSys).ret = FileStatus.FAILED ∧
    (posix_open_cb hasFn2 pxSys).err = some (-EISDIR) := by
  refine ⟨?_, ?_⟩
  · rw [fd_open_cb, if_neg h1, if_neg (by omega), if_pos h3]
  · rw [posix_open_cb, if_neg h4, if_pos h5, if_neg (by omega),
      if_pos h7]
    exact ⟨rfl, rfl⟩

/-- Witness for C4 (amended): concrete successful opens whose stat
reports a directory fail with `-EISDIR` on both backends. -/
theorem fd_posix_open_directory_fails_witness :
    fd_open_cb true
      { openFd := 3, openErrno := 0, fstatRet := 0, fstatErrno := 0,
        isDir := true } =
      { ret := FileStatus.FAILED, err := some (-EISDIR) } ∧
    (posix_open_cb true
      { fopenOk := true, fopenErrno := 0, filenoFd := 3, fstatRet := 0,
        fstatErrno := 0, isDir := true, isReg := false,
        isBlk := false }).err = some (-EISDIR) := by
  have h := fd_posix_open_directory_fails true true
    { openFd := 3, openErrno := 0, fstatRet := 0, fstatErrno := 0,
      isDir := true }
    { fopenOk := true, fopenErrno := 0, filenoFd := 3, fstatRet := 0,
      fstatErrno := 0, isDir := true, isReg := false, isBlk := false }
    (by decide) (by decide) rfl (by decide) (by decide) (by decide) rfl
  exact ⟨h.1, h.2.2⟩

end Mb
